import Mathlib

/-!
Verification of the real-time voice session engine implemented in
`src/features/ChatBot.tsx` (the live-conversation component).

The engine state held in React refs/state hooks is embedded as an explicit
record `EngineState`; each event handler of the source (the `onmessage`
branches, `onclose`, `handleStopConversation`, `handleStartConversation`,
`summarizeAndRestart`, `handleToolCall`) becomes a pure state-transition
function.  Audio-clock values (`AudioContext.currentTime`,
`AudioBuffer.duration`) are modelled as rationals; `AudioBufferSourceNode`
objects are modelled by fresh natural-number identifiers drawn from a
counter, so the `sourcesRef` JS `Set` becomes a list of identifiers.
-/

namespace VoiceEngine

/-- `connectionState` values of the component (`ConnectionState` union type). -/
inductive ConnState
  | idle
  | connecting
  | connected
  | reconnecting
  | closed
  | error
deriving DecidableEq, Repr

/-- One transcript entry: `{ user, model }` (the `Transcript` shape used by
`transcripts` and `currentInterim`). -/
structure Turn where
  user : String
  model : String
deriving DecidableEq, Repr

/-- A remote function call `{ id, name, args }` received in a `toolCall`
control message; `args` is kept opaque. -/
structure FunctionCall where
  id : String
  name : String
  args : String
deriving DecidableEq, Repr

/-- The engine state of the live-conversation component: React state hooks
(`connectionState`, `reconnectAttempts`, `transcripts`, `currentInterim`,
`isSummarizing`, `isPaused`) and refs (`conversationSummaryRef`,
`nextStartTimeRef`, `sourcesRef`, plus the per-connection resource refs,
each modelled as a Boolean "held/open" flag).  `playbackSet` models
`sourcesRef.current` (scheduled source nodes, by identifier);
`stoppedSources` records every source on which `.stop()` has been called —
in Web Audio a stopped source can never emit audio again; `nextSourceId`
supplies a fresh identifier per created source node. -/
structure EngineState where
  connectionState : ConnState
  reconnectAttempts : Nat
  transcripts : List Turn
  currentInterim : Turn
  conversationSummary : Option String
  isSummarizing : Bool
  isPaused : Bool
  sessionOpen : Bool
  mediaStreamActive : Bool
  scriptProcessorAttached : Bool
  micGainAttached : Bool
  outputGainAttached : Bool
  audioContextOpen : Bool
  outputAudioContextOpen : Bool
  nextStartTime : ℚ
  playbackSet : List Nat
  stoppedSources : List Nat
  nextSourceId : Nat
deriving DecidableEq, Repr

/-- A state with every hook at its initial value, as on component mount. -/
def initState : EngineState :=
  { connectionState := .idle
    reconnectAttempts := 0
    transcripts := []
    currentInterim := ⟨"", ""⟩
    conversationSummary := none
    isSummarizing := false
    isPaused := false
    sessionOpen := false
    mediaStreamActive := false
    scriptProcessorAttached := false
    micGainAttached := false
    outputGainAttached := false
    audioContextOpen := false
    outputAudioContextOpen := false
    nextStartTime := 0
    playbackSet := []
    stoppedSources := []
    nextSourceId := 0 }

/-- One inbound `LiveServerMessage`, restricted to the fields the `onmessage`
handler reads.  `audioData` is the duration of the decoded inbound audio
chunk (`serverContent.modelTurn.parts[0].inlineData.data` after
`decodeAudioData`); `none` means the message carries no audio. -/
structure ServerMessage where
  functionCalls : Option (List FunctionCall) := none
  inputTranscription : Option String := none
  outputTranscription : Option String := none
  turnComplete : Bool := false
  audioData : Option ℚ := none
  interrupted : Bool := false

/-- `serverContent.inputTranscription` branch: append the delta to the user
side of `currentInterim`. -/
def onInputTranscription (st : EngineState) (t : String) : EngineState :=
  { st with currentInterim := { st.currentInterim with user := st.currentInterim.user ++ t } }

/-- `serverContent.outputTranscription` branch: append the delta to the model
side of `currentInterim`. -/
def onOutputTranscription (st : EngineState) (t : String) : EngineState :=
  { st with currentInterim := { st.currentInterim with model := st.currentInterim.model ++ t } }

/-- `serverContent.turnComplete` branch: append `currentInterim` to
`transcripts` when `current.user || current.model` is truthy (either string
non-empty), then reset the interim turn to `{ user: "", model: "" }`. -/
def onTurnComplete (st : EngineState) : EngineState :=
  let st1 :=
    if st.currentInterim.user ≠ "" ∨ st.currentInterim.model ≠ "" then
      { st with transcripts := st.transcripts ++ [st.currentInterim] }
    else st
  { st1 with currentInterim := ⟨"", ""⟩ }

/-- The audio branch of `onmessage`: clamp the cursor with
`nextStartTimeRef.current = Math.max(nextStartTimeRef.current, ctx.currentTime)`,
create a source node for the decoded buffer, register its `ended` listener,
`source.start(nextStartTimeRef.current)`, advance the cursor by
`audioBuffer.duration`, and add the source to `sourcesRef.current`.
Returns the new state together with the scheduled start time. -/
def enqueueAudio (st : EngineState) (now dur : ℚ) : EngineState × ℚ :=
  let start := max st.nextStartTime now
  ({ st with nextStartTime := start + dur
             playbackSet := st.playbackSet ++ [st.nextSourceId]
             nextSourceId := st.nextSourceId + 1 }, start)

/-- `serverContent.interrupted` branch: `source.stop()` on every member of
`sourcesRef.current`, clear the set, and set `nextStartTimeRef.current = 0`. -/
def handleInterrupted (st : EngineState) : EngineState :=
  { st with stoppedSources := st.stoppedSources ++ st.playbackSet
            playbackSet := []
            nextStartTime := 0 }

/-- The `ended` listener registered on each source node:
`sourcesRef.current.delete(source)`. -/
def handleEnded (st : EngineState) (id : Nat) : EngineState :=
  { st with playbackSet := st.playbackSet.erase id }

/-- The `onmessage` callback, branch by branch in source order.  The
`toolCall` branch hands `functionCalls` to the asynchronous tool dispatcher
(`handleToolCall`, modelled separately) and does not touch this state.
`now` is `ctx.currentTime` when the message is handled; audio is scheduled
only when the output audio context and output gain node refs are live. -/
def onmessage (st : EngineState) (msg : ServerMessage) (now : ℚ) : EngineState :=
  let st1 := match msg.inputTranscription with
    | some t => onInputTranscription st t
    | none => st
  let st2 := match msg.outputTranscription with
    | some t => onOutputTranscription st1 t
    | none => st1
  let st3 := if msg.turnComplete then onTurnComplete st2 else st2
  let st4 := match msg.audioData with
    | some dur =>
        if st3.outputAudioContextOpen && st3.outputGainAttached then
          (enqueueAudio st3 now dur).1
        else st3
    | none => st3
  if msg.interrupted then handleInterrupted st4 else st4

/-- Fold `onmessage` over a list of messages, all handled at clock `now`. -/
def runMessages (st : EngineState) (msgs : List ServerMessage) (now : ℚ) : EngineState :=
  msgs.foldl (fun s m => onmessage s m now) st

/-- A message carrying only a user-side transcription delta. -/
def userDeltaMsg (t : String) : ServerMessage := { inputTranscription := some t }

/-- A message carrying only a model-side transcription delta. -/
def modelDeltaMsg (t : String) : ServerMessage := { outputTranscription := some t }

/-- A message carrying only a turn-complete signal. -/
def turnCompleteMsg : ServerMessage := { turnComplete := true }

/-- A message carrying only an interruption signal. -/
def interruptMsg : ServerMessage := { interrupted := true }

/-- `const MAX_RECONNECT_ATTEMPTS = 3;` -/
def MAX_RECONNECT_ATTEMPTS : Nat := 3

/-- The side effect the `onclose` handler requests: either
`setTimeout(() => handleStartConversation(true), 2000 * nextAttempt)` —
recorded with the attempt number and the delay in milliseconds — or nothing. -/
inductive CloseAction
  | scheduleReconnect (attempt : Nat) (delayMs : Nat)
  | noAction
deriving DecidableEq, Repr

/-- The `onclose` callback: when the close code is not `1000` (the normal,
voluntary close code) and `reconnectAttempts < MAX_RECONNECT_ATTEMPTS`, set
state `reconnecting`, bump the attempt counter and schedule
`handleStartConversation(true)` after `2000 * nextAttempt` ms; otherwise
set state `closed` and schedule nothing. -/
def onclose (st : EngineState) (code : Nat) : EngineState × CloseAction :=
  if code ≠ 1000 ∧ st.reconnectAttempts < MAX_RECONNECT_ATTEMPTS then
    let nextAttempt := st.reconnectAttempts + 1
    ({ st with connectionState := .reconnecting, reconnectAttempts := nextAttempt },
      .scheduleReconnect nextAttempt (2000 * nextAttempt))
  else
    ({ st with connectionState := .closed }, .noAction)

/-- The automatic retry chain of close events.  The retry scheduled at
`setTimeout(() => handleStartConversation(true), ...)` re-invokes the very
`handleStartConversation` closure instance that installed the current
`onclose`, and each connection opened by that instance installs an
`onclose` that reads the `reconnectAttempts` binding captured by the render
which created the instance — the pre-increment value — not the updated
state.  `captured` is that closure-captured value, held fixed along the
whole chain; the threaded state records the `setConnectionState` writes
(the `reconnectAttempts` field of the threaded state is rewritten to
`captured` at each read site, since the `setReconnectAttempts` writes never
feed back into the closures of the chain). -/
def runRetryChain (captured : Nat) : EngineState → List Nat → EngineState × List CloseAction
  | st, [] => (st, [])
  | st, c :: cs =>
      let p := onclose { st with reconnectAttempts := captured } c
      let q := runRetryChain captured p.1 cs
      (q.1, p.2 :: q.2)

/-- Number of reconnects scheduled in a list of close actions. -/
def countReconnects : List CloseAction → Nat
  | [] => 0
  | .scheduleReconnect _ _ :: rest => countReconnects rest + 1
  | .noAction :: rest => countReconnects rest

/-- `handleStopConversation`: close the session promise and null it, stop the
media-stream tracks, disconnect the script processor and both gain nodes,
close both audio contexts, `stop()` every source in `sourcesRef` and clear
the set, then set state `idle` and un-pause. -/
def handleStopConversation (st : EngineState) : EngineState :=
  { st with sessionOpen := false
            mediaStreamActive := false
            scriptProcessorAttached := false
            micGainAttached := false
            outputGainAttached := false
            audioContextOpen := false
            outputAudioContextOpen := false
            stoppedSources := st.stoppedSources ++ st.playbackSet
            playbackSet := []
            connectionState := .idle
            isPaused := false }

/-- `handleStartConversation(isRetry, customSystemInstruction)` up to the
point where `GeminiService.connectLive` is invoked, on the success path of
the `try` (microphone granted, contexts created).  When `isRetry` is false
it zeroes `reconnectAttempts`, clears `transcripts` and `currentInterim`,
and — unless a `customSystemInstruction` was passed — nulls
`conversationSummaryRef`.  `personaInstruction` is the system instruction
assembled from the active persona; the returned string is
`finalSystemInstruction`, the system instruction handed to `connectLive`:
the custom instruction if any, else the stored summary prepended (with a
blank line) to the persona instruction, else the persona instruction alone.
Option values model JS `undefined`/`null`; callers never pass an empty
custom instruction, matching the `||`/`?:` truthiness tests. -/
def handleStartConversation (st : EngineState) (isRetry : Bool)
    (customSystemInstruction : Option String) (personaInstruction : String) :
    EngineState × String :=
  let st1 :=
    if isRetry then st
    else
      { st with reconnectAttempts := 0
                transcripts := []
                currentInterim := ⟨"", ""⟩
                conversationSummary :=
                  if customSystemInstruction.isNone then none
                  else st.conversationSummary }
  let st2 := { st1 with connectionState := .connecting }
  let final :=
    match customSystemInstruction with
    | some c => c
    | none =>
        match st2.conversationSummary with
        | some s => s ++ "\n\n" ++ personaInstruction
        | none => personaInstruction
  ({ st2 with mediaStreamActive := true
              audioContextOpen := true
              outputAudioContextOpen := true
              outputGainAttached := true
              sessionOpen := true }, final)

/-- The string stored in `conversationSummaryRef` on a successful
summarization: the fixed continuation preamble followed by the summary. -/
def storedSummaryText (summary : String) : String :=
  "This is a summary of the conversation so far, continue from here:\n" ++ summary

/-- The synthetic transcript entry appended after a successful summarization
(`[System: ...]` notice; content paraphrased to avoid the apostrophe). -/
def summaryNotice : Turn :=
  ⟨"", "[System: I have summarized our conversation to maintain context.]"⟩

/-- `summarizeAndRestart`: bail out if already summarizing, else set the
summarizing flag, stop the current conversation, and ask
`GeminiService.summarizeConversation` for a summary (`summaryOutcome` is
the result of that call — `.ok summary` or `.error` for a thrown failure).  On
success, store the prefixed summary in `conversationSummaryRef`, append the
synthetic notice to `transcripts`, then restart via
`handleStartConversation(false)`; on failure, just restart via
`handleStartConversation(false)`.  Returns the new state and the
`finalSystemInstruction` of the restarted connection (`none` when the early
`isSummarizing` guard fired and no restart happened). -/
def summarizeAndRestart (st : EngineState) (summaryOutcome : Except String String)
    (personaInstruction : String) : EngineState × Option String :=
  if st.isSummarizing then (st, none)
  else
    let st1 := { st with isSummarizing := true }
    let st2 := handleStopConversation st1
    match summaryOutcome with
    | .ok summary =>
        let st3 := { st2 with conversationSummary := some (storedSummaryText summary) }
        let st4 := { st3 with transcripts := st3.transcripts ++ [summaryNotice] }
        let p := handleStartConversation st4 false none personaInstruction
        ({ p.1 with isSummarizing := false }, some p.2)
    | .error _ =>
        let p := handleStartConversation st2 false none personaInstruction
        ({ p.1 with isSummarizing := false }, some p.2)

/-! ### Tool-call dispatcher (`handleToolCall`) -/

/-- A tool response payload: the `result` object sent back in
`sendToolResponse`, collapsed to its `status` and message/summary. -/
inductive ToolResultPayload
  | success (info : String)
  | error (message : String)
deriving DecidableEq, Repr

/-- The tool names the `switch (name)` in `handleToolCall` handles. -/
def knownToolNames : List String :=
  ["searchWeb", "browseWebsite", "generateImage", "listDocuments",
   "createDocument", "createCharacter", "analyzeFile", "controlMediaPlayer"]

/-- Behaviour of the external tool collaborators: for a known tool name and
argument payload, either a normal completion carrying the payload the
`case` body builds (which may itself have error status, e.g. a missing
file), or `.error m` for a thrown exception with message `m`. -/
structure ToolEnv where
  exec : String → String → Except String ToolResultPayload

/-- The body of the `for (const fc of functionCalls)` loop for one
invocation: `result` starts as the structured `Unknown function` error, a
matching `case` replaces it with the tool outcome, and a thrown exception
is caught and replaced by a structured error carrying `e.message`. -/
def execToolCall (env : ToolEnv) (fc : FunctionCall) : ToolResultPayload :=
  if fc.name ∈ knownToolNames then
    match env.exec fc.name fc.args with
    | .ok payload => payload
    | .error m => .error m
  else .error ("Unknown function")

/-- One `sendToolResponse` message: `{ id: fc.id, name: fc.name, response: { result } }`. -/
structure ToolResponse where
  id : String
  name : String
  result : ToolResultPayload
deriving DecidableEq, Repr

/-- `handleToolCall`: every invocation of the batch produces exactly one
`sendToolResponse`, in batch order, tagged with the own id of the invocation. -/
def handleToolCall (env : ToolEnv) (fcs : List FunctionCall) : List ToolResponse :=
  fcs.map (fun fc => ⟨fc.id, fc.name, execToolCall env fc⟩)

/-- Timing view of the same `for (const fc of functionCalls)` loop: each
`case` body `await`s its tool, so invocation `i+1` is dispatched only when
invocation `i` has completed.  Starting the loop at clock `t0` with each
tool of each invocation taking `dur` time units, return for each invocation id
its dispatch time and its response (completion) time. -/
structure TimedToolCall where
  id : String
  dur : Nat
deriving DecidableEq, Repr

/-- Run the dispatch loop: `(id, dispatchTime, responseTime)` per invocation. -/
def runToolLoop (t0 : Nat) : List TimedToolCall → List (String × Nat × Nat)
  | [] => []
  | c :: cs => (c.id, t0, t0 + c.dur) :: runToolLoop (t0 + c.dur) cs

/-- Run a sequence of audio enqueues through `enqueueAudio`; each element of
`chunks` is `(ctx.currentTime at handling, buffer duration)`.  Returns the
scheduled start time of each buffer, in order. -/
def scheduleRun (st : EngineState) : List (ℚ × ℚ) → List ℚ
  | [] => []
  | (now, dur) :: rest =>
      let p := enqueueAudio st now dur
      p.2 :: scheduleRun p.1 rest

/-- A connected state with two sources playing and the cursor at 7 s. -/
def interruptDemoState : EngineState :=
  { initState with connectionState := .connected
                   sessionOpen := true
                   outputAudioContextOpen := true
                   outputGainAttached := true
                   nextStartTime := 7
                   playbackSet := [0, 1]
                   nextSourceId := 2 }

/-- A connected state mid-conversation, used to exercise the compaction
restart. -/
def compactionDemoState : EngineState :=
  { initState with connectionState := .connected
                   sessionOpen := true
                   mediaStreamActive := true
                   audioContextOpen := true
                   outputAudioContextOpen := true
                   outputGainAttached := true
                   transcripts := [⟨"Hello", "Hi there"⟩, ⟨"How are you", "Fine"⟩] }

/-- A demo collaborator environment: `browseWebsite` throws, every other
known tool completes normally. -/
def demoToolEnv : ToolEnv :=
  ⟨fun name _args =>
    if name = "browseWebsite" then .error ("network unreachable")
    else .ok (.success ("ok"))⟩

/-! ## Reduction lemmas for single-field messages -/

lemma onmessage_turnComplete (st : EngineState) (now : ℚ) :
    onmessage st turnCompleteMsg now = onTurnComplete st := rfl

lemma onmessage_interrupt (st : EngineState) (now : ℚ) :
    onmessage st interruptMsg now = handleInterrupted st := rfl

lemma onmessage_userDelta (st : EngineState) (t : String) (now : ℚ) :
    onmessage st (userDeltaMsg t) now = onInputTranscription st t := rfl

lemma onmessage_modelDelta (st : EngineState) (t : String) (now : ℚ) :
    onmessage st (modelDeltaMsg t) now = onOutputTranscription st t := rfl

lemma onTurnComplete_transcripts (st : EngineState) :
    (onTurnComplete st).transcripts =
      (if st.currentInterim.user ≠ "" ∨ st.currentInterim.model ≠ "" then
        st.transcripts ++ [st.currentInterim]
      else st.transcripts) := by
  simp only [onTurnComplete]
  split <;> rfl

lemma onTurnComplete_currentInterim (st : EngineState) :
    (onTurnComplete st).currentInterim = ⟨"", ""⟩ := rfl

/-! ## Theorems for the claims -/

/-- C8: a turn-complete signal appends the open turn to the transcript log
iff its user text or its model text is non-empty, then opens a fresh empty
turn; the delta sequence `[user "Hi", model "", turnComplete, user "",
model "", turnComplete]` appends exactly the one turn `{"Hi", ""}`, and a
duplicate turn-complete with no intervening deltas appends no empty turn. -/
theorem c8_turn_assembly :
    (∀ st : EngineState,
        (onmessage st turnCompleteMsg 0).transcripts =
          (if st.currentInterim.user ≠ "" ∨ st.currentInterim.model ≠ "" then
            st.transcripts ++ [st.currentInterim]
          else st.transcripts) ∧
        (onmessage st turnCompleteMsg 0).currentInterim = ⟨"", ""⟩) ∧
    (runMessages initState
        [userDeltaMsg ("Hi"), modelDeltaMsg (""), turnCompleteMsg,
         userDeltaMsg (""), modelDeltaMsg (""), turnCompleteMsg] 0).transcripts
      = [⟨"Hi", ""⟩] ∧
    (∀ st : EngineState,
        (onmessage (onmessage st turnCompleteMsg 0) turnCompleteMsg 0).transcripts =
          (onmessage st turnCompleteMsg 0).transcripts) := by
  refine ⟨fun st => ⟨?_, ?_⟩, by decide, fun st => ?_⟩
  · rw [onmessage_turnComplete, onTurnComplete_transcripts]
  · rw [onmessage_turnComplete, onTurnComplete_currentInterim]
  · rw [onmessage_turnComplete, onmessage_turnComplete, onTurnComplete_transcripts,
      onTurnComplete_currentInterim]
    simp

/-- C7: a voluntary stop transitions the state to Idle and releases every
per-connection resource (session handle, media stream, script processor,
gain nodes, audio contexts, scheduled sources), and a close event carrying
the voluntary close-reason code `1000` never schedules a reconnect — the
reconnect branch of `onclose` fires exactly for a non-`1000` code with the
attempt budget not exhausted. -/
theorem c7_voluntary_stop :
    (∀ st : EngineState,
        (handleStopConversation st).connectionState = .idle ∧
        (handleStopConversation st).sessionOpen = false ∧
        (handleStopConversation st).mediaStreamActive = false ∧
        (handleStopConversation st).scriptProcessorAttached = false ∧
        (handleStopConversation st).micGainAttached = false ∧
        (handleStopConversation st).outputGainAttached = false ∧
        (handleStopConversation st).audioContextOpen = false ∧
        (handleStopConversation st).outputAudioContextOpen = false ∧
        (handleStopConversation st).playbackSet = [] ∧
        (handleStopConversation st).isPaused = false) ∧
    (∀ st : EngineState, (onclose st 1000).2 = .noAction) ∧
    (∀ (st : EngineState) (code : Nat),
        (onclose st code).2 ≠ .noAction ↔
          code ≠ 1000 ∧ st.reconnectAttempts < MAX_RECONNECT_ATTEMPTS) := by
  refine ⟨fun st => ?_, fun st => ?_, fun st code => ?_⟩
  · exact ⟨rfl, rfl, rfl, rfl, rfl, rfl, rfl, rfl, rfl, rfl⟩
  · simp [onclose]
  · constructor
    · intro h
      by_contra hc
      rw [onclose, if_neg hc] at h
      exact h rfl
    · intro h
      rw [onclose, if_pos h]
      simp

/-- C2, claim as stated is false: processing an interruption signal resets
the `nextStart` cursor to `0`, not to the current time — with the cursor at
7 s and the clock at 5 s, the cursor after the interrupt is `0 ≠ 5`. -/
theorem c2_counterexample :
    (onmessage interruptDemoState interruptMsg 5).nextStartTime ≠ 5 := by
  rw [onmessage_interrupt]
  decide

/-- C2 amended: processing an inbound interruption signal stops every buffer
in the PlaybackSet, clears the set, and resets the `nextStart` cursor to
zero (not to the current time); because `enqueue` clamps the cursor with
`max(now, nextStart)`, playback still resumes from the current time at the
next enqueue. -/
theorem c2_interrupt_amended :
    ∀ (st : EngineState) (now : ℚ),
      (onmessage st interruptMsg now).stoppedSources =
        st.stoppedSources ++ st.playbackSet ∧
      (onmessage st interruptMsg now).playbackSet = [] ∧
      (onmessage st interruptMsg now).nextStartTime = 0 ∧
      (∀ now2 dur : ℚ, 0 ≤ now2 →
        (enqueueAudio (onmessage st interruptMsg now) now2 dur).2 = now2) := by
  intro st now
  rw [onmessage_interrupt]
  refine ⟨rfl, rfl, rfl, fun now2 dur h => ?_⟩
  simp [enqueueAudio, handleInterrupted, max_eq_right h]

/-- C2 amended, witnessed at a concrete interrupted state. -/
theorem c2_interrupt_amended_witness :
    (onmessage interruptDemoState interruptMsg 5).playbackSet = [] ∧
    (0 : ℚ) ≤ 6 ∧
    (enqueueAudio (onmessage interruptDemoState interruptMsg 5) 6 2).2 = 6 :=
  ⟨(c2_interrupt_amended interruptDemoState 5).2.1, by norm_num,
    (c2_interrupt_amended interruptDemoState 5).2.2.2 6 2 (by norm_num)⟩

lemma foldl_handleEnded_stoppedSources (ids : List Nat) (st : EngineState) :
    (ids.foldl handleEnded st).stoppedSources = st.stoppedSources := by
  induction ids generalizing st with
  | nil => rfl
  | cons i rest ih => rw [List.foldl_cons, ih]; rfl

/-- C5: immediately after an interruption signal is processed the PlaybackSet
is empty, and every source that was in the set before the interrupt stays
stopped — hence silent — no matter how many `ended` completion events are
processed afterwards. -/
theorem c5_interrupt_silence :
    ∀ (st : EngineState) (now : ℚ) (ids : List Nat),
      (onmessage st interruptMsg now).playbackSet = [] ∧
      st.playbackSet ⊆
        (ids.foldl handleEnded (onmessage st interruptMsg now)).stoppedSources := by
  intro st now ids
  rw [onmessage_interrupt]
  refine ⟨rfl, ?_⟩
  rw [foldl_handleEnded_stoppedSources]
  exact List.subset_append_right _ _

/-- C5, witnessed: both sources playing before the interrupt are stopped
even after their completion events are processed. -/
theorem c5_interrupt_silence_witness :
    (onmessage interruptDemoState interruptMsg 5).playbackSet = [] ∧
    0 ∈ (List.foldl handleEnded (onmessage interruptDemoState interruptMsg 5)
          [0, 1]).stoppedSources ∧
    1 ∈ (List.foldl handleEnded (onmessage interruptDemoState interruptMsg 5)
          [0, 1]).stoppedSources :=
  ⟨(c5_interrupt_silence interruptDemoState 5 [0, 1]).1,
    (c5_interrupt_silence interruptDemoState 5 [0, 1]).2 (by decide),
    (c5_interrupt_silence interruptDemoState 5 [0, 1]).2 (by decide)⟩

/-- C1 fails on the code: a successful compaction run from a connected state
restarts the connection with `finalSystemInstruction` equal to the persona
context alone — `handleStartConversation(false)` (no custom instruction)
nulls `conversationSummaryRef` before reading it, so the stored summary is
dropped instead of being prepended. -/
theorem c1_compaction_summary_dropped :
    (summarizeAndRestart compactionDemoState
        (.ok ("The user greeted the assistant."))
        ("You are a helpful assistant.")).2 =
      some ("You are a helpful assistant.") ∧
    (summarizeAndRestart compactionDemoState
        (.ok ("The user greeted the assistant."))
        ("You are a helpful assistant.")).1.conversationSummary = none :=
  ⟨rfl, rfl⟩

/-- C10: every non-retry start — including the restart performed on both the
success and the failure path of context compaction — clears the transcript
log and the interim turn before connecting. -/
theorem c10_fresh_start_clears :
    ∀ (st : EngineState) (custom : Option String) (persona : String)
      (outcome : Except String String),
      (handleStartConversation st false custom persona).1.transcripts = [] ∧
      (handleStartConversation st false custom persona).1.currentInterim = ⟨"", ""⟩ ∧
      (st.isSummarizing = false →
        (summarizeAndRestart st outcome persona).1.transcripts = [] ∧
        (summarizeAndRestart st outcome persona).1.currentInterim = ⟨"", ""⟩) := by
  intro st custom persona outcome
  refine ⟨rfl, rfl, fun h => ?_⟩
  cases outcome <;> simp [summarizeAndRestart, h, handleStartConversation]

/-- C10, witnessed on the compaction success path from a mid-conversation
state: the transcript (summary notice included) is cleared. -/
theorem c10_fresh_start_clears_witness :
    compactionDemoState.isSummarizing = false ∧
    (summarizeAndRestart compactionDemoState (.ok ("s")) ("p")).1.transcripts = [] :=
  ⟨rfl, ((c10_fresh_start_clears compactionDemoState none ("p") (.ok ("s"))).2.2 rfl).1⟩

/-- C9: every invocation of a batch yields exactly one ToolResult, sent in
batch order and tagged with the own id of the invocation (the response-id list
equals the invocation-id list, so ids pair up one-to-one); an unknown tool
name yields the structured `Unknown function` error payload, and a tool
execution that throws yields a structured error payload carrying the
thrown message instead of propagating the failure. -/
theorem c9_tool_results :
    ∀ (env : ToolEnv) (fcs : List FunctionCall),
      (handleToolCall env fcs).map ToolResponse.id = fcs.map FunctionCall.id ∧
      (handleToolCall env fcs).length = fcs.length ∧
      (∀ fc : FunctionCall, fc.name ∉ knownToolNames →
        execToolCall env fc = .error ("Unknown function")) ∧
      (∀ (fc : FunctionCall) (m : String), fc.name ∈ knownToolNames →
        env.exec fc.name fc.args = .error m →
        execToolCall env fc = .error m) := by
  intro env fcs
  refine ⟨?_, ?_, fun fc h => ?_, fun fc m h1 h2 => ?_⟩
  · simp [handleToolCall, List.map_map, Function.comp_def]
  · simp [handleToolCall]
  · rw [execToolCall, if_neg h]
  · rw [execToolCall, if_pos h1, h2]

/-- C9, witnessed on a two-invocation batch with a throwing tool and an
unknown tool name. -/
theorem c9_tool_results_witness :
    (handleToolCall demoToolEnv
        [⟨"A", "searchWeb", "q"⟩, ⟨"B", "noSuchTool", ""⟩]).map ToolResponse.id =
      List.map FunctionCall.id [⟨"A", "searchWeb", "q"⟩, ⟨"B", "noSuchTool", ""⟩] ∧
    execToolCall demoToolEnv ⟨"B", "noSuchTool", ""⟩ = .error ("Unknown function") ∧
    execToolCall demoToolEnv ⟨"C", "browseWebsite", "url"⟩ =
      .error ("network unreachable") :=
  ⟨(c9_tool_results demoToolEnv [⟨"A", "searchWeb", "q"⟩, ⟨"B", "noSuchTool", ""⟩]).1,
    (c9_tool_results demoToolEnv []).2.2.1 ⟨"B", "noSuchTool", ""⟩ (by decide),
    (c9_tool_results demoToolEnv []).2.2.2 ⟨"C", "browseWebsite", "url"⟩
      ("network unreachable") (by decide) rfl⟩

/-- C3, claim as stated is false: in a batch of two invocations, the
dispatch and response times of the second depend on the duration of the
first — with tool `A` taking 10 units, `B` is dispatched at 10 and answered
at 11, whereas with `A` instantaneous, `B` is dispatched at 0 and answered
at 1. -/
theorem c3_counterexample :
    (runToolLoop 0 [⟨"A", 10⟩, ⟨"B", 1⟩]).getD 1 ("", 0, 0) ≠
      (runToolLoop 0 [⟨"A", 0⟩, ⟨"B", 1⟩]).getD 1 ("", 0, 0) := by
  decide

/-- C3 amended: the invocations of a batch are processed sequentially in
receipt order — each one is dispatched only when every earlier invocation
in the batch has completed, so the i-th invocation is dispatched at the sum
of the earlier durations and answered after its own duration on top. -/
theorem c3_sequential_amended :
    ∀ (t0 : Nat) (cs : List TimedToolCall) (i : Nat), i < cs.length →
      (runToolLoop t0 cs).length = cs.length ∧
      (runToolLoop t0 cs).getD i ("", 0, 0) =
        ((cs.getD i ⟨"", 0⟩).id,
          t0 + ((cs.take i).map TimedToolCall.dur).sum,
          t0 + ((cs.take (i + 1)).map TimedToolCall.dur).sum) := by
  have hlen : ∀ (t0 : Nat) (cs : List TimedToolCall),
      (runToolLoop t0 cs).length = cs.length := by
    intro t0 cs
    induction cs generalizing t0 with
    | nil => rfl
    | cons c rest ih => simp [runToolLoop, ih]
  intro t0 cs
  induction cs generalizing t0 with
  | nil => intro i hi; exact absurd hi (by simp)
  | cons c rest ih =>
      intro i hi
      refine ⟨hlen t0 (c :: rest), ?_⟩
      cases i with
      | zero => simp [runToolLoop]
      | succ j =>
          have hj : j < rest.length := by
            simpa using Nat.lt_of_succ_lt_succ hi
          have h2 := (ih (t0 + c.dur) j hj).2
          simp only [runToolLoop, List.getD_cons_succ, h2, List.take_succ_cons,
            List.map_cons, List.sum_cons, Prod.mk.injEq]
          exact ⟨trivial, by omega, by omega⟩

/-- C3 amended, witnessed: in the batch `[A lasting 10, B lasting 1]`
started at clock 0, `B` is dispatched at 10 and answered at 11. -/
theorem c3_sequential_amended_witness :
    (runToolLoop 0 [⟨"A", 10⟩, ⟨"B", 1⟩]).getD 1 ("", 0, 0) = ("B", 10, 11) := by
  rw [(c3_sequential_amended 0 [⟨"A", 10⟩, ⟨"B", 1⟩] 1 (by decide)).2]
  decide

lemma scheduleRun_length (chunks : List (ℚ × ℚ)) (st : EngineState) :
    (scheduleRun st chunks).length = chunks.length := by
  induction chunks generalizing st with
  | nil => rfl
  | cons c rest ih => cases c with | mk n d => simp [scheduleRun, ih]

lemma enqueueAudio_start (st : EngineState) (now dur : ℚ) :
    (enqueueAudio st now dur).2 = max st.nextStartTime now := rfl

lemma enqueueAudio_cursor (st : EngineState) (now dur : ℚ) :
    (enqueueAudio st now dur).1.nextStartTime = max st.nextStartTime now + dur := rfl

lemma scheduleRun_consecutive (chunks : List (ℚ × ℚ)) (st : EngineState)
    (i : Nat) (hi : i + 1 < chunks.length) :
    (scheduleRun st chunks).getD i 0 + (chunks.getD i (0, 0)).2 ≤
      (scheduleRun st chunks).getD (i + 1) 0 := by
  induction chunks generalizing st i with
  | nil => exact absurd hi (by simp)
  | cons c rest ih =>
      cases c with
      | mk n d =>
          cases i with
          | zero =>
              cases rest with
              | nil => exact absurd hi (by simp)
              | cons c2 rest2 =>
                  cases c2 with
                  | mk n2 d2 =>
                      simp only [scheduleRun, List.getD_cons_zero, List.getD_cons_succ,
                        enqueueAudio_start]
                      calc max st.nextStartTime n + d
                          ≤ max (max st.nextStartTime n + d) n2 := le_max_left _ _
                        _ = (scheduleRun (enqueueAudio st n d).1 ((n2, d2) :: rest2)).getD 0 0 := by
                            simp [scheduleRun, enqueueAudio_start, enqueueAudio_cursor]
          | succ j =>
              have hj : j + 1 < rest.length := by simpa using hi
              simpa [scheduleRun, List.getD_cons_succ] using
                ih (enqueueAudio st n d).1 j hj

lemma scheduleRun_ge_now (chunks : List (ℚ × ℚ)) (st : EngineState)
    (i : Nat) (hi : i < chunks.length) :
    (chunks.getD i (0, 0)).1 ≤ (scheduleRun st chunks).getD i 0 := by
  induction chunks generalizing st i with
  | nil => exact absurd hi (by simp)
  | cons c rest ih =>
      cases c with
      | mk n d =>
          cases i with
          | zero =>
              simp only [scheduleRun, List.getD_cons_zero, enqueueAudio_start]
              exact le_max_right _ _
          | succ j =>
              have hj : j < rest.length := by simpa using Nat.lt_of_succ_lt_succ hi
              simpa [scheduleRun, List.getD_cons_succ] using
                ih (enqueueAudio st n d).1 j hj

/-- C4: a buffer is scheduled to start exactly at `max(now, nextStart)` and
the cursor then advances by the duration of the buffer; over any run of
enqueues, each scheduled start is at least the previous start plus the
duration of the previous buffer, the starts are non-decreasing (durations being
non-negative), and no buffer starts before the clock value at its enqueue. -/
theorem c4_enqueue_schedule :
    (∀ (st : EngineState) (now dur : ℚ),
        (enqueueAudio st now dur).2 = max st.nextStartTime now ∧
        (enqueueAudio st now dur).1.nextStartTime = (enqueueAudio st now dur).2 + dur) ∧
    (∀ (st : EngineState) (chunks : List (ℚ × ℚ)) (i : Nat),
        i + 1 < chunks.length →
        (scheduleRun st chunks).getD i 0 + (chunks.getD i (0, 0)).2 ≤
          (scheduleRun st chunks).getD (i + 1) 0) ∧
    (∀ (st : EngineState) (chunks : List (ℚ × ℚ)) (i : Nat),
        (∀ p ∈ chunks, 0 ≤ p.2) → i + 1 < chunks.length →
        (scheduleRun st chunks).getD i 0 ≤ (scheduleRun st chunks).getD (i + 1) 0) ∧
    (∀ (st : EngineState) (chunks : List (ℚ × ℚ)) (i : Nat),
        i < chunks.length →
        (chunks.getD i (0, 0)).1 ≤ (scheduleRun st chunks).getD i 0) := by
  refine ⟨fun st now dur => ⟨rfl, rfl⟩,
    fun st chunks i hi => scheduleRun_consecutive chunks st i hi,
    fun st chunks i hpos hi => ?_,
    fun st chunks i hi => scheduleRun_ge_now chunks st i hi⟩
  have h1 := scheduleRun_consecutive chunks st i hi
  have hmem : chunks.getD i (0, 0) ∈ chunks := by
    have hilt : i < chunks.length := Nat.lt_of_succ_lt hi
    rw [List.getD_eq_getElem chunks (0, 0) hilt]
    exact List.getElem_mem hilt
  have hd : 0 ≤ (chunks.getD i (0, 0)).2 := hpos _ hmem
  linarith

/-- C4, witnessed on the run `[(0, 2), (1, 3), (10, 1)]` from the initial
state. -/
theorem c4_enqueue_schedule_witness :
    (enqueueAudio initState 5 2).2 = max initState.nextStartTime 5 ∧
    ((scheduleRun initState [(0, 2), (1, 3), (10, 1)]).getD 0 0 +
        (([(0, 2), (1, 3), (10, 1)] : List (ℚ × ℚ)).getD 0 (0, 0)).2 ≤
      (scheduleRun initState [(0, 2), (1, 3), (10, 1)]).getD 1 0) ∧
    ((scheduleRun initState [(0, 2), (1, 3), (10, 1)]).getD 1 0 ≤
      (scheduleRun initState [(0, 2), (1, 3), (10, 1)]).getD 2 0) ∧
    ((([(0, 2), (1, 3), (10, 1)] : List (ℚ × ℚ)).getD 2 (0, 0)).1 ≤
      (scheduleRun initState [(0, 2), (1, 3), (10, 1)]).getD 2 0) :=
  ⟨(c4_enqueue_schedule.1 initState 5 2).1,
    c4_enqueue_schedule.2.1 initState [(0, 2), (1, 3), (10, 1)] 0 (by norm_num),
    c4_enqueue_schedule.2.2.1 initState [(0, 2), (1, 3), (10, 1)] 1
      (by intro p hp; fin_cases hp <;> norm_num) (by norm_num),
    c4_enqueue_schedule.2.2.2 initState [(0, 2), (1, 3), (10, 1)] 2 (by norm_num)⟩

/-- C6 fails on the code: the retry scheduled at ChatBot.tsx:1228 re-invokes
the same `handleStartConversation` closure instance, so every `onclose` in
the automatic retry chain reads the captured pre-increment
`reconnectAttempts` — `0` for a chain begun by a fresh start.  Four
involuntary closes therefore schedule four reconnects, exceeding
`MAX_RECONNECT_ATTEMPTS = 3`; every retry carries attempt number 1 and the
constant delay `2000 = 2000 × 1` ms, and the state ends Reconnecting —
never automatically Closed, so the cap is never enforced. -/
theorem c6_stale_cap_never_enforced :
    countReconnects (runRetryChain 0 initState [1006, 1006, 1006, 1006]).2 =
      MAX_RECONNECT_ATTEMPTS + 1 ∧
    (runRetryChain 0 initState [1006, 1006, 1006, 1006]).2 =
      List.replicate 4 (CloseAction.scheduleReconnect 1 2000) ∧
    (runRetryChain 0 initState [1006, 1006, 1006, 1006]).1.connectionState =
      ConnState.reconnecting :=
  ⟨rfl, rfl, rfl⟩

/-- C7, witnessed at a connected mid-conversation state. -/
theorem c7_voluntary_stop_witness :
    (handleStopConversation compactionDemoState).connectionState = ConnState.idle ∧
    (onclose compactionDemoState 1000).2 = CloseAction.noAction :=
  ⟨(c7_voluntary_stop.1 compactionDemoState).1,
    c7_voluntary_stop.2.1 compactionDemoState⟩

/-- C8, witnessed: a turn-complete on a fresh state opens an empty turn and
appends nothing. -/
theorem c8_turn_assembly_witness :
    (onmessage initState turnCompleteMsg 0).currentInterim = (⟨"", ""⟩ : Turn) ∧
    (onmessage (onmessage initState turnCompleteMsg 0) turnCompleteMsg 0).transcripts =
      (onmessage initState turnCompleteMsg 0).transcripts :=
  ⟨(c8_turn_assembly.1 initState).2, c8_turn_assembly.2.2 initState⟩

end VoiceEngine
